import Mathlib

/-!
Verification of the PICOBOOT protocol driver (`picoboot.js`) and the firmware
loader (`picotool.js`) of the tinycircuits.js repository, via a shallow
embedding of the JavaScript source into Lean.

Modelling conventions:
* JS `ArrayBuffer` / `Uint8Array` contents are `List Nat` (each entry a byte).
  The JS type distinction between an `ArrayBuffer` and a typed-array view
  matters (`new DataView(x)` accepts only an `ArrayBuffer`), so values that
  can flow into `DataView` are tagged with `JsBytes`.
* A JS value that may be `undefined` is an `Option`.
* USB bulk traffic is recorded as a list of `UsbEvent`s; the device is
  modelled as always answering a transfer-in with status `"ok"` (the non-ok
  branch of `#sendPacket` throws, but no claim concerns a misbehaving device).
* Each driver method returns an `OpResult`: the updated driver state, the USB
  events it issued, the error it threw (if any), and — as a ghost trace used
  to state the token invariant — the command buffers constructed by
  `#buildCmdPacketBase` during the call.
-/

/-- Write one byte at `off` (JS `DataView.setUint8`: the value is taken mod 256;
writes past the end of the buffer do not occur in the modelled code). -/
def setUint8 (b : List Nat) (off v : Nat) : List Nat :=
  b.set off (v % 256)

/-- Write a 32-bit little-endian value at `off` (JS `DataView.setUint32` with
`littleEndian = true`: the value is converted with ToUint32, i.e. mod 2^32). -/
def setUint32LE (b : List Nat) (off v : Nat) : List Nat :=
  ((((b.set off (v % 256)).set (off + 1) (v / 256 % 256)).set
      (off + 2) (v / 65536 % 256)).set (off + 3) (v / 16777216 % 256))

/-- Read one byte at `off` (missing entries read as 0; only used in range). -/
def getUint8 (b : List Nat) (off : Nat) : Nat :=
  b.getD off 0

/-- Read a 32-bit little-endian value at `off`. -/
def getUint32LE (b : List Nat) (off : Nat) : Nat :=
  b.getD off 0 + 256 * b.getD (off + 1) 0 + 65536 * b.getD (off + 2) 0 +
    16777216 * b.getD (off + 3) 0

/-- JS `slice(b, e)` on an array of bytes: elements in `[b, min e length)`. -/
def jsSlice (l : List Nat) (b e : Nat) : List Nat :=
  (l.take e).drop b

/-- Error kinds that can arise in the modelled code, together with the error
kinds named by the specification (`imageFormatError`, `unknownDeviceError`);
the code as written never produces the latter two. -/
inductive JsError
  | typeError
  | referenceError
  | rangeError
  | imageFormatError
  | unknownDeviceError
  deriving DecidableEq

/-- A JS byte-buffer value, tagged with whether it is an `ArrayBuffer` or a
`Uint8Array` view: `new DataView(x)` accepts only the former. -/
inductive JsBytes
  | arrayBuffer (bytes : List Nat)
  | uint8Array (bytes : List Nat)
  deriving DecidableEq

/-- `new DataView(x)`: succeeds only on an `ArrayBuffer`; a `Uint8Array` or
`undefined` argument raises a `TypeError`. -/
def jsDataView : Option JsBytes → Except JsError (List Nat)
  | some (JsBytes.arrayBuffer bytes) => Except.ok bytes
  | some (JsBytes.uint8Array _) => Except.error JsError.typeError
  | none => Except.error JsError.typeError

/-- `new Uint8Array(x)`: a buffer argument yields its bytes; `undefined` is
coerced to length 0, yielding the empty array (no error). -/
def jsUint8ArrayOf : Option JsBytes → List Nat
  | some (JsBytes.arrayBuffer bytes) => bytes
  | some (JsBytes.uint8Array bytes) => bytes
  | none => []

/-- `DataView.getUint32(off, true)`: out-of-range reads raise a `RangeError`. -/
def dataViewGetUint32 (b : List Nat) (off : Nat) : Except JsError Nat :=
  if off + 4 ≤ b.length then Except.ok (getUint32LE b off)
  else Except.error JsError.rangeError

/-- One USB bulk transfer observed on the wire. -/
inductive UsbEvent
  | transferOut (endpoint : Nat) (bytes : List Nat)
  | transferIn (endpoint : Nat) (length : Nat)
  deriving DecidableEq

/-- The WebUSB device handle, as far as `connect` inspects it:
`configuration` is the active configuration (`none` models JS `null`). -/
structure UsbDeviceInfo where
  configuration : Option Nat
  deriving DecidableEq

/-- The `Picoboot` instance state: `device` (null until connected), the
request `token` counter, and the flash geometry constants set by the
constructor. -/
structure PicobootState where
  device : Option UsbDeviceInfo
  token : Nat
  sectorSize : Nat
  pageSize : Nat
  deriving DecidableEq

/-- `new Picoboot()`. -/
def Picoboot.new : PicobootState :=
  ⟨none, 0, 4096, 256⟩

/-- Result of one driver method call: final state, USB events issued, the
error thrown (if any), and the ghost list of command buffers constructed by
`#buildCmdPacketBase` during the call. -/
structure OpResult where
  state : PicobootState
  events : List UsbEvent
  err : Option JsError
  built : List (List Nat)
  deriving DecidableEq

/-- `PICOBOOT_EXCLUSIVE_MODES.NOT_EXCLUSIVE`. -/
def PICOBOOT_EXCLUSIVE_MODES.NOT_EXCLUSIVE : Nat := 0

/-- `PICOBOOT_EXCLUSIVE_MODES.EXCLUSIVE`. -/
def PICOBOOT_EXCLUSIVE_MODES.EXCLUSIVE : Nat := 1

/-- `PICOBOOT_EXCLUSIVE_MODES.EXCLUSIVE_AND_EJECT`. -/
def PICOBOOT_EXCLUSIVE_MODES.EXCLUSIVE_AND_EJECT : Nat := 2

/-- The 32-byte buffer as constructed inside `#buildCmdPacketBase`:
`new ArrayBuffer(32)` (zero-filled), then `setUint32(0x00, 0x431fd10b, true)`,
`setUint32(0x04, token, true)`, `setUint8(0x08, cmdId)`,
`setUint8(0x09, cmdSize)`, `setUint32(0x0c, transferLength, true)`. -/
def buildCmdPacketBaseBuf (token bCmdId bCmdSize dTransferLength : Nat) :
    List Nat :=
  setUint32LE
    (setUint8
      (setUint8
        (setUint32LE (setUint32LE (List.replicate 32 0) 0x00 0x431fd10b)
          0x04 token)
        0x08 bCmdId)
      0x09 bCmdSize)
    0x0c dTransferLength

/-- What one call to `#buildCmdPacketBase` produces: the JS return value
(`ret`), the buffer it constructed locally (`buf`, kept as a ghost record),
and the updated driver state. -/
structure BuildResult where
  ret : Option JsBytes
  buf : List Nat
  state : PicobootState

/-- `#buildCmdPacketBase(bCmdId, bCmdSize, dTransferLength)`: constructs the
32-byte packet, fills in the header fields, increments `this.token` — and has
no `return` statement, so its value is `undefined` (`ret := none`). -/
def Picoboot.buildCmdPacketBase (s : PicobootState)
    (bCmdId bCmdSize dTransferLength : Nat) : BuildResult :=
  ⟨none, buildCmdPacketBaseBuf s.token bCmdId bCmdSize dTransferLength,
    ⟨s.device, s.token + 1, s.sectorSize, s.pageSize⟩⟩

/-- `#sendPacket(packet)`: `transferOut(3, new Uint8Array(packet))`, then
`transferIn(4, 64)` and a status check. The device is modelled as always
replying with status `"ok"`, so the throwing branch is not taken. -/
def Picoboot.sendPacket (packet : Option JsBytes) : List UsbEvent :=
  [UsbEvent.transferOut 3 (jsUint8ArrayOf packet), UsbEvent.transferIn 4 64]

/-- `connect(filters)`: stores the selected device, opens it, and — if no
configuration is active — executes `await device.selectConfiguration(1)`,
where `device` is an undeclared identifier, raising a `ReferenceError` before
the interface is claimed and before the token reset.  Otherwise the interface
is claimed and `this.token` is reset to 0. -/
def Picoboot.connect (s : PicobootState) (dev : UsbDeviceInfo) : OpResult :=
  match dev.configuration with
  | none =>
      ⟨⟨some dev, s.token, s.sectorSize, s.pageSize⟩, [],
        some JsError.referenceError, []⟩
  | some _ =>
      ⟨⟨some dev, 0, s.sectorSize, s.pageSize⟩, [], none, []⟩

/-- `connected()`: `this.device !== null`. -/
def Picoboot.connected (s : PicobootState) : Bool :=
  s.device.isSome

/-- `disconnect()`: no-op when no device; otherwise closes and clears it. -/
def Picoboot.disconnect (s : PicobootState) : OpResult :=
  match s.device with
  | none => ⟨s, [], none, []⟩
  | some _ => ⟨⟨none, s.token, s.sectorSize, s.pageSize⟩, [], none, []⟩

/-- `exclusive(exclusiveMode)`: guard on `this.device === null`; builds the
packet base (command 0x01, arg size 0x01, transfer length 0), then constructs
`new DataView(packet)` over the builder's return value, sets the mode byte at
0x10 and sends.  Since the builder returns `undefined`, the `DataView`
construction raises a `TypeError` before any transfer. -/
def Picoboot.exclusive (s : PicobootState) (exclusiveMode : Nat) : OpResult :=
  match s.device with
  | none => ⟨s, [], none, []⟩
  | some _ =>
    let b := Picoboot.buildCmdPacketBase s 0x01 0x01 0x00000000
    match jsDataView b.ret with
    | Except.error e => ⟨b.state, [], some e, [b.buf]⟩
    | Except.ok pv =>
        let pv := setUint8 pv 0x10 exclusiveMode
        ⟨b.state, Picoboot.sendPacket (some (JsBytes.arrayBuffer pv)), none,
          [b.buf]⟩

/-- `reboot_rp2040()`: builds the packet base (command 0x02, arg size 0x0c,
transfer length 0), then writes the zero dPC/dSP bytes and the nonzero
millisecond delay through a `DataView` over the builder's return value and
sends.  Since the builder returns `undefined`, the `DataView` construction
raises a `TypeError` before any transfer. -/
def Picoboot.reboot_rp2040 (s : PicobootState) : OpResult :=
  match s.device with
  | none => ⟨s, [], none, []⟩
  | some _ =>
    let b := Picoboot.buildCmdPacketBase s 0x02 0x0c 0x00000000
    match jsDataView b.ret with
    | Except.error e => ⟨b.state, [], some e, [b.buf]⟩
    | Except.ok pv =>
        let pv := setUint32LE (setUint8 (setUint8 pv 0x10 0) 0x14 0)
          0x18 0x00005631
        ⟨b.state, Picoboot.sendPacket (some (JsBytes.arrayBuffer pv)), none,
          [b.buf]⟩

/-- `reboot_rp2350()`: builds the packet base (command 0x0a, arg size 0x10,
transfer length 0) and passes the builder's return value straight to
`#sendPacket`; since that value is `undefined`, `new Uint8Array(undefined)`
yields an empty array and a zero-length packet is sent. -/
def Picoboot.reboot_rp2350 (s : PicobootState) : OpResult :=
  match s.device with
  | none => ⟨s, [], none, []⟩
  | some _ =>
    let b := Picoboot.buildCmdPacketBase s 0x0a 0x10 0x00000000
    ⟨b.state, Picoboot.sendPacket b.ret, none, [b.buf]⟩

/-- `exit_xip()`: builds the packet base (command 0x06, arg size 0, transfer
length 0) and passes the builder's return value straight to `#sendPacket`;
since that value is `undefined`, a zero-length packet is sent. -/
def Picoboot.exit_xip (s : PicobootState) : OpResult :=
  match s.device with
  | none => ⟨s, [], none, []⟩
  | some _ =>
    let b := Picoboot.buildCmdPacketBase s 0x06 0x00 0x00000000
    ⟨b.state, Picoboot.sendPacket b.ret, none, [b.buf]⟩

/-- `flashErase(address, size)`: builds the packet base (command 0x03, arg
size 0x08, transfer length 0), then writes `address` and `size` as 32-bit
little-endian arguments at 0x10/0x14 through a `DataView` over the builder's
return value and sends.  Since the builder returns `undefined`, the
`DataView` construction raises a `TypeError` before any transfer. -/
def Picoboot.flashErase (s : PicobootState) (address size : Nat) : OpResult :=
  match s.device with
  | none => ⟨s, [], none, []⟩
  | some _ =>
    let b := Picoboot.buildCmdPacketBase s 0x03 0x08 0x00000000
    match jsDataView b.ret with
    | Except.error e => ⟨b.state, [], some e, [b.buf]⟩
    | Except.ok pv =>
        let pv := setUint32LE (setUint32LE pv 0x10 address) 0x14 size
        ⟨b.state, Picoboot.sendPacket (some (JsBytes.arrayBuffer pv)), none,
          [b.buf]⟩

/-- `flashEraseSector(address)`: `sectorIndex = Math.floor(address /
this.sectorSize)` (Nat division is the floor for the non-negative addresses
read out of a UF2 block), `sectorAddr = sectorIndex * this.sectorSize`, then
one call `flashErase(sectorAddr, this.sectorSize)`. -/
def Picoboot.flashEraseSector (s : PicobootState) (address : Nat) : OpResult :=
  let sectorIndex := address / s.sectorSize
  let sectorAddr := sectorIndex * s.sectorSize
  Picoboot.flashErase s sectorAddr s.sectorSize

/-- `flashWrite(address, size, payload)`: builds the packet base (command
0x05, arg size 0x08, transfer length `size`), then writes `address` and
`size` at 0x10/0x14 through a `DataView` over the builder's return value,
sends the command packet and then sends the payload (each `#sendPacket` call
performing its own status read).  Since the builder returns `undefined`, the
`DataView` construction raises a `TypeError` before any transfer. -/
def Picoboot.flashWrite (s : PicobootState) (address size : Nat)
    (payload : List Nat) : OpResult :=
  match s.device with
  | none => ⟨s, [], none, []⟩
  | some _ =>
    let b := Picoboot.buildCmdPacketBase s 0x05 0x08 size
    match jsDataView b.ret with
    | Except.error e => ⟨b.state, [], some e, [b.buf]⟩
    | Except.ok pv =>
        let pv := setUint32LE (setUint32LE pv 0x10 address) 0x14 size
        ⟨b.state,
          Picoboot.sendPacket (some (JsBytes.arrayBuffer pv)) ++
            Picoboot.sendPacket (some (JsBytes.uint8Array payload)),
          none, [b.buf]⟩

/-- One driver command invocation on an existing session (the operations of
`Picoboot` other than connect/disconnect), used to state properties of whole
command sequences. -/
inductive Cmd
  | exclusive (mode : Nat)
  | reboot_rp2040
  | reboot_rp2350
  | exit_xip
  | flashErase (address size : Nat)
  | flashEraseSector (address : Nat)
  | flashWrite (address size : Nat) (payload : List Nat)
  deriving DecidableEq

/-- Dispatch one `Cmd` to the corresponding driver method. -/
def runCmd (s : PicobootState) : Cmd → OpResult
  | Cmd.exclusive mode => Picoboot.exclusive s mode
  | Cmd.reboot_rp2040 => Picoboot.reboot_rp2040 s
  | Cmd.reboot_rp2350 => Picoboot.reboot_rp2350 s
  | Cmd.exit_xip => Picoboot.exit_xip s
  | Cmd.flashErase address size => Picoboot.flashErase s address size
  | Cmd.flashEraseSector address => Picoboot.flashEraseSector s address
  | Cmd.flashWrite address size payload =>
      Picoboot.flashWrite s address size payload

/-- Run a sequence of driver commands, collecting the ghost list of command
buffers built along the way. -/
def runCmds (s : PicobootState) : List Cmd → PicobootState × List (List Nat)
  | [] => (s, [])
  | c :: rest =>
      let r := runCmd s c
      let q := runCmds r.state rest
      (q.1, r.built ++ q.2)

/-- The body of `Picotool.load`'s block loop, at loop counter `i`.  The JS
guard `i < blockCount` with `blockCount = byteLength / 512` (real division)
is equivalent, for integer `i`, to `512 * i < byteLength`.  Each iteration
slices the 512-byte block (a `Uint8Array`) and constructs
`new DataView(block)` — the `DataView` constructor rejects a `Uint8Array`
view, raising a `TypeError`.  The erase/write calls below it are not awaited
in the source; their synchronous effects are modelled in order. -/
def Picotool.loadLoop (pb : PicobootState) (data : List Nat)
    (erasedSectors : List Nat) (i : Nat) : OpResult :=
  if _h : 512 * i < data.length then
    let block := jsSlice data (512 * i) (512 * i + 512)
    match jsDataView (some (JsBytes.uint8Array block)) with
    | Except.error e => ⟨pb, [], some e, []⟩
    | Except.ok bv =>
      match dataViewGetUint32 bv 12, dataViewGetUint32 bv 16 with
      | Except.ok blockDataAddr, Except.ok blockDataSize =>
        let blockData := jsSlice block 32 (32 + blockDataSize)
        let sectorIndex := blockDataAddr / pb.sectorSize
        let wasErased := erasedSectors.contains sectorIndex
        let erasedSectors := if wasErased then erasedSectors
          else sectorIndex :: erasedSectors
        let r1 := if wasErased then (⟨pb, [], none, []⟩ : OpResult)
          else Picoboot.flashEraseSector pb blockDataAddr
        let r2 := Picoboot.flashWrite r1.state blockDataAddr blockDataSize
          blockData
        let rest := Picotool.loadLoop r2.state data erasedSectors (i + 1)
        ⟨rest.state, r1.events ++ r2.events ++ rest.events, rest.err,
          r1.built ++ r2.built ++ rest.built⟩
      | Except.error e, _ => ⟨pb, [], some e, []⟩
      | _, Except.error e => ⟨pb, [], some e, []⟩
  else ⟨pb, [], none, []⟩
termination_by data.length - 512 * i
decreasing_by omega

/-- `Picotool.load(uf2Data)`: returns silently if not connected; otherwise
awaits `exclusive(EXCLUSIVE_AND_EJECT)`, then `exit_xip()`, then runs the
block loop with a fresh erased-sector set.  An error thrown by an awaited
step propagates out of `load`. -/
def Picotool.load (pb : PicobootState) (uf2Data : List Nat) : OpResult :=
  if Picoboot.connected pb = false then ⟨pb, [], none, []⟩
  else
    let r1 := Picoboot.exclusive pb PICOBOOT_EXCLUSIVE_MODES.EXCLUSIVE_AND_EJECT
    match r1.err with
    | some e => ⟨r1.state, r1.events, some e, r1.built⟩
    | none =>
      let r2 := Picoboot.exit_xip r1.state
      match r2.err with
      | some e => ⟨r2.state, r1.events ++ r2.events, some e, r1.built ++ r2.built⟩
      | none =>
        let r3 := Picotool.loadLoop r2.state uf2Data [] 0
        ⟨r3.state, r1.events ++ r2.events ++ r3.events, r3.err,
          r1.built ++ r2.built ++ r3.built⟩

/-- Substring test over character lists (JS `indexOf(needle) != -1`). -/
def listHasSub (needle : List Char) : List Char → Bool
  | [] => needle.isEmpty
  | c :: rest => needle.isPrefixOf (c :: rest) || listHasSub needle rest

/-- The two reboot paths the loader can select. -/
inductive RebootPath
  | rp2040
  | rp2350
  deriving DecidableEq

/-- Modelled from the spec: the reboot-path selection the loader performs on
the device's product name after all blocks are written.  This step is
referenced by the spec (§4.2 step 4, §8, and §9's note on "the source's
`RP2` check") but is absent from the `load` in `src/picotool.js` as
provided.  Per the spec, the most specific match is checked first: a name
containing "RP2350" selects the RP2350 path; otherwise a name containing
"RP2" selects the RP2040 path; any other name is a fatal
`UnknownDeviceError` and no reboot command is sent. -/
def selectRebootPath (productName : String) : Except JsError RebootPath :=
  if listHasSub "RP2350".toList productName.toList then
    Except.ok RebootPath.rp2350
  else if listHasSub "RP2".toList productName.toList then
    Except.ok RebootPath.rp2040
  else Except.error JsError.unknownDeviceError

/-- A concrete device with an active configuration. -/
def devCfg1 : UsbDeviceInfo := ⟨some 1⟩

/-- A concrete device whose active configuration is `null`. -/
def devNoCfg : UsbDeviceInfo := ⟨none⟩

/-- A concrete connected driver state (fresh connection to `devCfg1`). -/
def s0 : PicobootState := ⟨some devCfg1, 0, 4096, 256⟩

/-- A concrete one-block (512-byte) UF2 image, all bytes zero. -/
def img512 : List Nat := List.replicate 512 0

/-- A concrete 600-byte input whose length is not a multiple of 512. -/
def img600 : List Nat := List.replicate 600 0

/-- A concrete disconnected driver state with a nonzero token, to observe
that a failed `connect` leaves the token unreset. -/
def s7 : PicobootState := ⟨none, 7, 4096, 256⟩

/-- The command buffer written out explicitly: magic `0x431fd10b` little-endian
at 0..3, token at 4..7, command ID at 8, command size at 9, transfer length at
12..15, zero padding elsewhere. -/
theorem buildCmdPacketBaseBuf_eq (t a b c : Nat) :
    buildCmdPacketBaseBuf t a b c =
      [11, 209, 31, 67, t % 256, t / 256 % 256, t / 65536 % 256,
        t / 16777216 % 256, a % 256, b % 256, 0, 0, c % 256, c / 256 % 256,
        c / 65536 % 256, c / 16777216 % 256, 0, 0, 0, 0, 0, 0, 0, 0, 0, 0, 0,
        0, 0, 0, 0, 0] := by
  rfl

/-- Little-endian byte decomposition reassembles to the value mod 2^32. -/
theorem u32_le_bytes_eq (v : Nat) :
    v % 256 + 256 * (v / 256 % 256) + 65536 * (v / 65536 % 256) +
      16777216 * (v / 16777216 % 256) = v % 4294967296 := by
  omega

/-- The token field of a built command buffer is the token value mod 2^32. -/
theorem buildCmdPacketBaseBuf_token (t a b c : Nat) :
    getUint32LE (buildCmdPacketBaseBuf t a b c) 4 = t % 4294967296 := by
  rw [buildCmdPacketBaseBuf_eq]
  show t % 256 + 256 * (t / 256 % 256) + 65536 * (t / 65536 % 256) +
      16777216 * (t / 16777216 % 256) = t % 4294967296
  omega

/-- Any driver command run on an open session leaves the device untouched,
increments the token by exactly one, and builds exactly one command buffer,
which carries the pre-increment token value in its token field. -/
theorem runCmd_session (s : PicobootState) (c : Cmd) (d : UsbDeviceInfo)
    (hd : s.device = some d) :
    (runCmd s c).state = ⟨s.device, s.token + 1, s.sectorSize, s.pageSize⟩ ∧
    (runCmd s c).built.map (fun p => getUint32LE p 4) =
      [s.token % 4294967296] := by
  cases c <;>
    simp [runCmd, Picoboot.exclusive, Picoboot.reboot_rp2040,
      Picoboot.reboot_rp2350, Picoboot.exit_xip, Picoboot.flashErase,
      Picoboot.flashEraseSector, Picoboot.flashWrite,
      Picoboot.buildCmdPacketBase, jsDataView, hd, buildCmdPacketBaseBuf_token]

/-- Over a whole command sequence on an open session, the token fields of the
built command buffers are consecutive counter values starting at the session's
current token, reduced mod 2^32. -/
theorem runCmds_tokens (cmds : List Cmd) (s : PicobootState)
    (d : UsbDeviceInfo) (hd : s.device = some d) :
    (runCmds s cmds).2.map (fun p => getUint32LE p 4) =
      (List.range' s.token cmds.length).map (fun i => i % 4294967296) := by
  induction cmds generalizing s with
  | nil => simp [runCmds]
  | cons c rest ih =>
      obtain ⟨hstate, hbuilt⟩ := runCmd_session s c d hd
      have hd' : (runCmd s c).state.device = some d := by rw [hstate]; exact hd
      have htok : (runCmd s c).state.token = s.token + 1 := by rw [hstate]
      have hrest := ih (runCmd s c).state hd'
      rw [htok] at hrest
      simp only [runCmds, List.map_append, hbuilt, hrest, List.length_cons,
        List.range'_succ, List.map_cons, List.singleton_append]

/-- The mod-2^32 reduction is injective on the first 2^32 counter values. -/
theorem range'_mod_nodup (n : Nat) (hn : n ≤ 4294967296) :
    ((List.range' 0 n).map (fun i => i % 4294967296)).Nodup := by
  have hcong : ∀ i ∈ List.range' 0 n, i % 4294967296 = i := by
    intro i hi
    rw [List.mem_range'] at hi
    omega
  rw [List.map_congr_left hcong]
  simpa using List.nodup_range' (s := 0) (n := n)

/-- C8: every session-requiring operation (exclusive, flashErase, flashWrite,
reboot_rp2040, reboot_rp2350, exit_xip — and also flashEraseSector) invoked
with no device handle returns silently: no USB transfer, no error, and the
state (in particular the token counter) unchanged. -/
theorem c8_no_session_silent_noop (s : PicobootState) (c : Cmd)
    (hs : s.device = none) :
    runCmd s c = ⟨s, [], none, []⟩ := by
  cases c <;>
    simp [runCmd, Picoboot.exclusive, Picoboot.reboot_rp2040,
      Picoboot.reboot_rp2350, Picoboot.exit_xip, Picoboot.flashErase,
      Picoboot.flashEraseSector, Picoboot.flashWrite, hs]

/-- Witness for C8 at a concrete disconnected state and a concrete write. -/
theorem c8_no_session_silent_noop_witness :
    Picoboot.new.device = none ∧
    runCmd Picoboot.new (Cmd.flashWrite 268435456 4 [1, 2, 3, 4]) =
      ⟨Picoboot.new, [], none, []⟩ :=
  ⟨rfl, c8_no_session_silent_noop Picoboot.new
    (Cmd.flashWrite 268435456 4 [1, 2, 3, 4]) rfl⟩

/-- C9: `flashEraseSector(address)` issues exactly one `flashErase` call,
whose address argument is floor(address / 4096) * 4096 and whose size is one
sector (4096 bytes); the address argument is always sector-aligned and at
most `address`. -/
theorem c9_flashEraseSector_sector_aligned (s : PicobootState) (address : Nat)
    (hs : s.sectorSize = 4096) :
    Picoboot.flashEraseSector s address =
      Picoboot.flashErase s (address / 4096 * 4096) 4096 ∧
    4096 ∣ address / 4096 * 4096 ∧
    address / 4096 * 4096 ≤ address := by
  refine ⟨by simp [Picoboot.flashEraseSector, hs], ?_, Nat.div_mul_le_self _ _⟩
  exact dvd_mul_left 4096 (address / 4096)

/-- Witness for C9 at a concrete state and the unaligned address 5000. -/
theorem c9_flashEraseSector_sector_aligned_witness :
    Picoboot.flashEraseSector s0 5000 =
      Picoboot.flashErase s0 (5000 / 4096 * 4096) 4096 ∧
    4096 ∣ 5000 / 4096 * 4096 ∧
    5000 / 4096 * 4096 ≤ 5000 :=
  c9_flashEraseSector_sector_aligned s0 5000 rfl

/-- C10: when the opened device's active configuration is `null`, `connect`
throws (the configuration branch references the undeclared identifier
`device`), the token counter is not reset, and no transfer is attempted; so
`connect` completes successfully only for devices that already have an
active configuration. -/
theorem c10_connect_null_configuration (s : PicobootState)
    (dev : UsbDeviceInfo) (h : dev.configuration = none) :
    (Picoboot.connect s dev).err = some JsError.referenceError ∧
    (Picoboot.connect s dev).state.token = s.token ∧
    (Picoboot.connect s dev).events = [] := by
  simp [Picoboot.connect, h]

/-- Witness for C10: a configuration-less device and a state with token 7. -/
theorem c10_connect_null_configuration_witness :
    (Picoboot.connect s7 devNoCfg).err = some JsError.referenceError ∧
    (Picoboot.connect s7 devNoCfg).state.token = s7.token ∧
    (Picoboot.connect s7 devNoCfg).events = [] :=
  c10_connect_null_configuration s7 devNoCfg rfl

/-- C5 counterexample: with an active session, `exit_xip` does not throw a
TypeError before any transfer — it completes without raising and a USB
transfer (of a zero-length packet) is issued, refuting the claim that no
command operation with an active session can complete without raising. -/
theorem c5_counterexample_exit_xip_completes :
    (Picoboot.exit_xip s0).err = none ∧
    (Picoboot.exit_xip s0).events =
      [UsbEvent.transferOut 3 [], UsbEvent.transferIn 4 64] ∧
    (Picoboot.exit_xip s0).events ≠ [] :=
  ⟨rfl, rfl, by decide⟩

/-- C5 amended: with an active session, `exclusive`, `reboot_rp2040`,
`flashErase` and `flashWrite` construct a `DataView` over the builder's
undefined return value and throw a TypeError before any USB transfer, while
`exit_xip` and `reboot_rp2350` pass the undefined value to
`new Uint8Array(...)`, which yields an empty array, so they send a
zero-length packet and complete without raising. -/
theorem c5_amended_typeerror_except_senders (s : PicobootState)
    (d : UsbDeviceInfo) (hd : s.device = some d) (mode a sz : Nat)
    (payload : List Nat) :
    ((Picoboot.exclusive s mode).err = some JsError.typeError ∧
      (Picoboot.exclusive s mode).events = []) ∧
    ((Picoboot.reboot_rp2040 s).err = some JsError.typeError ∧
      (Picoboot.reboot_rp2040 s).events = []) ∧
    ((Picoboot.flashErase s a sz).err = some JsError.typeError ∧
      (Picoboot.flashErase s a sz).events = []) ∧
    ((Picoboot.flashWrite s a sz payload).err = some JsError.typeError ∧
      (Picoboot.flashWrite s a sz payload).events = []) ∧
    ((Picoboot.exit_xip s).err = none ∧
      (Picoboot.exit_xip s).events =
        [UsbEvent.transferOut 3 [], UsbEvent.transferIn 4 64]) ∧
    ((Picoboot.reboot_rp2350 s).err = none ∧
      (Picoboot.reboot_rp2350 s).events =
        [UsbEvent.transferOut 3 [], UsbEvent.transferIn 4 64]) := by
  simp [Picoboot.exclusive, Picoboot.reboot_rp2040, Picoboot.reboot_rp2350,
    Picoboot.exit_xip, Picoboot.flashErase, Picoboot.flashWrite,
    Picoboot.buildCmdPacketBase, Picoboot.sendPacket, jsDataView,
    jsUint8ArrayOf, hd]

/-- Witness for the amended C5 at a concrete session. -/
theorem c5_amended_typeerror_except_senders_witness :
    ((Picoboot.exclusive s0 2).err = some JsError.typeError ∧
      (Picoboot.exclusive s0 2).events = []) ∧
    ((Picoboot.reboot_rp2040 s0).err = some JsError.typeError ∧
      (Picoboot.reboot_rp2040 s0).events = []) ∧
    ((Picoboot.flashErase s0 268435456 4096).err = some JsError.typeError ∧
      (Picoboot.flashErase s0 268435456 4096).events = []) ∧
    ((Picoboot.flashWrite s0 268435456 4 [1, 2, 3, 4]).err =
        some JsError.typeError ∧
      (Picoboot.flashWrite s0 268435456 4 [1, 2, 3, 4]).events = []) ∧
    ((Picoboot.exit_xip s0).err = none ∧
      (Picoboot.exit_xip s0).events =
        [UsbEvent.transferOut 3 [], UsbEvent.transferIn 4 64]) ∧
    ((Picoboot.reboot_rp2350 s0).err = none ∧
      (Picoboot.reboot_rp2350 s0).events =
        [UsbEvent.transferOut 3 [], UsbEvent.transferIn 4 64]) :=
  c5_amended_typeerror_except_senders s0 devCfg1 rfl 2 268435456 4
    [1, 2, 3, 4]

/-- C1 (failing evaluation): on a connected session and a one-block 512-byte
image (one distinct sector, so the claim demands exactly one erase before the
write), `load` throws a TypeError at the initial `exclusive` command — the
packet builder returned `undefined` — and issues no USB transfer at all: zero
erase commands and zero write commands.  The only command buffer ever
constructed is the exclusive command (ID 0x01), not an erase. -/
theorem c1_load_no_erase_issued :
    (Picotool.load s0 img512).err = some JsError.typeError ∧
    (Picotool.load s0 img512).events = [] ∧
    (Picotool.load s0 img512).built = [buildCmdPacketBaseBuf 0 1 1 0] :=
  ⟨rfl, rfl, rfl⟩

/-- C4 counterexample: with an active session, `flashWrite` sends nothing on
the bulk-OUT endpoint (its events are empty) and throws a TypeError, refuting
the claim that the data sent is exactly the 32-byte header followed by the
payload with a single status read. -/
theorem c4_counterexample_flashWrite_sends_nothing :
    (Picoboot.flashWrite s0 268435456 4 [1, 2, 3, 4]).events = [] ∧
    (Picoboot.flashWrite s0 268435456 4 [1, 2, 3, 4]).err =
      some JsError.typeError :=
  ⟨rfl, rfl⟩

/-- C4 amended: with an active session, `flashWrite` consumes one token and
then throws a TypeError at `new DataView(packet)` — the packet builder
returned `undefined` — before any USB transfer: no header, no payload and no
status read are transferred. -/
theorem c4_amended_flashWrite_typeerror (s : PicobootState)
    (d : UsbDeviceInfo) (hd : s.device = some d) (a sz : Nat)
    (payload : List Nat) :
    (Picoboot.flashWrite s a sz payload).err = some JsError.typeError ∧
    (Picoboot.flashWrite s a sz payload).events = [] ∧
    (Picoboot.flashWrite s a sz payload).state.token = s.token + 1 := by
  simp [Picoboot.flashWrite, Picoboot.buildCmdPacketBase, jsDataView, hd]

/-- Witness for the amended C4 at a concrete session and write. -/
theorem c4_amended_flashWrite_typeerror_witness :
    (Picoboot.flashWrite s0 268435456 256 (List.replicate 256 0)).err =
      some JsError.typeError ∧
    (Picoboot.flashWrite s0 268435456 256 (List.replicate 256 0)).events =
      [] ∧
    (Picoboot.flashWrite s0 268435456 256
      (List.replicate 256 0)).state.token = s0.token + 1 :=
  c4_amended_flashWrite_typeerror s0 devCfg1 rfl 268435456 256
    (List.replicate 256 0)

/-- C2: the buffer constructed inside `#buildCmdPacketBase` is exactly 32
bytes with the magic `0x431fd10b` little-endian at offset 0, the token at
offset 4, the command ID at offset 8, the command-args length at offset 9,
the transfer length at offset 12 and zero padding from offset 16 on — but the
builder returns `undefined` instead of the packet, so (failing evaluation) a
command operation such as `exclusive` on an open session throws a TypeError
and emits nothing. -/
theorem c2_layout_constructed_but_not_emitted (t a b c : Nat) :
    (buildCmdPacketBaseBuf t a b c).length = 32 ∧
    getUint32LE (buildCmdPacketBaseBuf t a b c) 0 = 0x431fd10b ∧
    getUint32LE (buildCmdPacketBaseBuf t a b c) 4 = t % 4294967296 ∧
    getUint8 (buildCmdPacketBaseBuf t a b c) 8 = a % 256 ∧
    getUint8 (buildCmdPacketBaseBuf t a b c) 9 = b % 256 ∧
    getUint32LE (buildCmdPacketBaseBuf t a b c) 12 = c % 4294967296 ∧
    (buildCmdPacketBaseBuf t a b c).drop 16 = List.replicate 16 0 ∧
    (Picoboot.buildCmdPacketBase s0 1 1 0).ret = none ∧
    (Picoboot.exclusive s0 1).err = some JsError.typeError ∧
    (Picoboot.exclusive s0 1).events = [] := by
  refine ⟨?_, ?_, buildCmdPacketBaseBuf_token t a b c, ?_, ?_, ?_, ?_, rfl,
    rfl, rfl⟩
  · rw [buildCmdPacketBaseBuf_eq]; rfl
  · rw [buildCmdPacketBaseBuf_eq]
    show (11 : Nat) + 256 * 209 + 65536 * 31 + 16777216 * 67 = 0x431fd10b
    norm_num
  · rw [buildCmdPacketBaseBuf_eq]
    show a % 256 = a % 256
    rfl
  · rw [buildCmdPacketBaseBuf_eq]
    show b % 256 = b % 256
    rfl
  · rw [buildCmdPacketBaseBuf_eq]
    show c % 256 + 256 * (c / 256 % 256) + 65536 * (c / 65536 % 256) +
        16777216 * (c / 16777216 % 256) = c % 4294967296
    omega
  · rw [buildCmdPacketBaseBuf_eq]; rfl

/-- C3: within one session, a successful `connect` resets the token counter
to 0; every driver command on an open session increments the token by exactly
one (a payload-carrying `flashWrite` builds exactly one command packet and so
consumes exactly one token despite its two physical transfers), the single
packet built during the command carries the pre-increment token in its token
field; consequently, over any command sequence of at most 2^32 commands after
a connect, the token fields of the built packets are pairwise distinct — no
token value is reused within the session. -/
theorem c3_token_reset_increment_no_reuse (sPre : PicobootState)
    (dev : UsbDeviceInfo) (cfg : Nat) (hcfg : dev.configuration = some cfg)
    (cmds : List Cmd) (hlen : cmds.length ≤ 4294967296)
    (s' : PicobootState) (c : Cmd) (d : UsbDeviceInfo)
    (hd : s'.device = some d) :
    (Picoboot.connect sPre dev).state.token = 0 ∧
    (Picoboot.connect sPre dev).err = none ∧
    (runCmd s' c).state.token = s'.token + 1 ∧
    (runCmd s' c).built.map (fun p => getUint32LE p 4) =
      [s'.token % 4294967296] ∧
    ((runCmds (Picoboot.connect sPre dev).state cmds).2.map
        (fun p => getUint32LE p 4)).Nodup := by
  have hstate : (Picoboot.connect sPre dev).state =
      ⟨some dev, 0, sPre.sectorSize, sPre.pageSize⟩ := by
    simp [Picoboot.connect, hcfg]
  obtain ⟨h1, h2⟩ := runCmd_session s' c d hd
  refine ⟨by rw [hstate], by simp [Picoboot.connect, hcfg], by rw [h1], h2, ?_⟩
  have hdev : (Picoboot.connect sPre dev).state.device = some dev := by
    rw [hstate]
  rw [runCmds_tokens cmds (Picoboot.connect sPre dev).state dev hdev]
  have htok : (Picoboot.connect sPre dev).state.token = 0 := by rw [hstate]
  rw [htok]
  exact range'_mod_nodup cmds.length hlen

/-- Witness for C3: a fresh connect followed by three concrete commands, and
one concrete command on a concrete open session. -/
theorem c3_token_reset_increment_no_reuse_witness :
    (Picoboot.connect Picoboot.new devCfg1).state.token = 0 ∧
    (Picoboot.connect Picoboot.new devCfg1).err = none ∧
    (runCmd s0 (Cmd.flashErase 268435456 4096)).state.token = s0.token + 1 ∧
    (runCmd s0 (Cmd.flashErase 268435456 4096)).built.map
        (fun p => getUint32LE p 4) = [s0.token % 4294967296] ∧
    ((runCmds (Picoboot.connect Picoboot.new devCfg1).state
          [Cmd.exclusive 2, Cmd.exit_xip,
            Cmd.flashWrite 268435456 4 [1, 2, 3, 4]]).2.map
        (fun p => getUint32LE p 4)).Nodup :=
  c3_token_reset_increment_no_reuse Picoboot.new devCfg1 1 rfl
    [Cmd.exclusive 2, Cmd.exit_xip, Cmd.flashWrite 268435456 4 [1, 2, 3, 4]]
    (by decide) s0 (Cmd.flashErase 268435456 4096) devCfg1 rfl

/-- C7 counterexample: on a connected session and a concrete 600-byte image
(600 is not a multiple of 512), `load` does not fail with the
`ImageFormatError` the claim requires — it throws a TypeError (at the
initial `exclusive` command). -/
theorem c7_counterexample_no_imageformaterror :
    (600 : Nat) % 512 ≠ 0 ∧
    (Picotool.load s0 img600).err = some JsError.typeError ∧
    JsError.typeError ≠ JsError.imageFormatError :=
  ⟨by decide, rfl, by decide⟩

/-- C7 amended: `load` performs no length validation and never raises an
`ImageFormatError` for any state and image; the loop guard `i < blockCount`
(with `blockCount = byteLength / 512` in exact arithmetic) is `512 * i <
byteLength`, and for an image whose length is a multiple of 512 this makes
the number of iterated block indices exactly `length / 512`. -/
theorem c7_amended_no_validation (pb : PicobootState) (img : List Nat)
    (L i : Nat) (h : 512 ∣ L) :
    (Picotool.load pb img).err ≠ some JsError.imageFormatError ∧
    (512 * i < L ↔ i < L / 512) := by
  constructor
  · cases hd : pb.device with
    | none => simp [Picotool.load, Picoboot.connected, hd]
    | some d =>
        simp [Picotool.load, Picoboot.connected, hd, Picoboot.exclusive,
          Picoboot.buildCmdPacketBase, jsDataView]
  · omega

/-- Witness for the amended C7 at a concrete state, image, and length. -/
theorem c7_amended_no_validation_witness :
    (512 ∣ 1024) ∧
    ((Picotool.load s0 img600).err ≠ some JsError.imageFormatError ∧
      (512 * 1 < 1024 ↔ 1 < 1024 / 512)) :=
  ⟨⟨2, rfl⟩, c7_amended_no_validation s0 img600 1024 1 ⟨2, rfl⟩⟩

/-- If `n₁` is a prefix of `n₂`, any character list containing `n₂` as a
substring also contains `n₁`. -/
theorem listHasSub_mono (n₁ n₂ : List Char) (hp : n₁ <+: n₂) :
    ∀ h : List Char, listHasSub n₂ h = true → listHasSub n₁ h = true := by
  intro h
  induction h with
  | nil =>
      simp only [listHasSub, List.isEmpty_iff]
      intro hh
      subst hh
      exact List.prefix_nil.mp hp
  | cons c rest ih =>
      simp only [listHasSub, Bool.or_eq_true]
      intro hh
      rcases hh with hpre | hsub
      · left
        rw [List.isPrefixOf_iff_prefix] at hpre ⊢
        exact hp.trans hpre
      · right
        exact ih hsub

/-- C6 (selection modelled from the spec): the loader's reboot-path selection
maps a product name containing "RP2350" to the RP2350 path, a name
containing "RP2" but not "RP2350" to the RP2040 path, and any other name to
`UnknownDeviceError` with no reboot path selected; in particular "RP2040"
selects the RP2040 path, "RP2350" the RP2350 path, and "ESP32" the error. -/
theorem c6_reboot_path_selection (name : String) :
    (selectRebootPath name = Except.ok RebootPath.rp2350 ↔
      listHasSub "RP2350".toList name.toList = true) ∧
    (selectRebootPath name = Except.ok RebootPath.rp2040 ↔
      (listHasSub "RP2".toList name.toList = true ∧
        listHasSub "RP2350".toList name.toList = false)) ∧
    (selectRebootPath name = Except.error JsError.unknownDeviceError ↔
      listHasSub "RP2".toList name.toList = false) ∧
    selectRebootPath "RP2040" = Except.ok RebootPath.rp2040 ∧
    selectRebootPath "RP2350" = Except.ok RebootPath.rp2350 ∧
    selectRebootPath "ESP32" = Except.error JsError.unknownDeviceError := by
  cases h35 : listHasSub "RP2350".toList name.toList with
  | true =>
      have h2 : listHasSub "RP2".toList name.toList = true :=
        listHasSub_mono "RP2".toList "RP2350".toList (by decide) name.toList
          h35
      refine ⟨?_, ?_, ?_, rfl, rfl, rfl⟩ <;>
        simp only [selectRebootPath, h35, h2] <;> simp
  | false =>
      cases h2 : listHasSub "RP2".toList name.toList with
      | true =>
          refine ⟨?_, ?_, ?_, rfl, rfl, rfl⟩ <;>
            simp only [selectRebootPath, h35, h2] <;> simp
      | false =>
          refine ⟨?_, ?_, ?_, rfl, rfl, rfl⟩ <;>
            simp only [selectRebootPath, h35, h2] <;> simp
